import Mathlib

/-!
Shallow embedding of the `fete` NES/6502 emulator core (Rust) in Lean 4.

Conventions of the embedding:
* Machine integers (`u8`, `u16`) are modelled as `Nat` with explicit
  `% 256` / `% 65536` where the Rust code wraps (`wrapping_add`, bit masks).
* A Rust operation that can panic (an overflowing `+` in a debug build, an
  `unreachable!`, a `todo!`, a failed `assert_eq!`) is modelled as an
  `Option`-valued function returning `none` on the panic path.
* Field and function names follow the source (`src/src/bus.rs`,
  `src/src/cpu/mod.rs`, `src/src/cpu/status.rs`, `src/src/cpu/addr_mode.rs`,
  `src/src/opcode/*.rs`, `src/tests/nestest.rs`) up to `camelCase` renaming.
-/

namespace Fete

/-- Checked `u16` addition: Rust `a + b` on `u16` panics on overflow
(debug profile); modelled as `none` past `0xFFFF`. -/
def u16Add (a b : Nat) : Option Nat :=
  if a + b ≤ 0xFFFF then some (a + b) else none

/-- Checked `u8` addition: Rust `a + b` on `u8` panics on overflow
(debug profile); modelled as `none` past `0xFF`. -/
def u8Add (a b : Nat) : Option Nat :=
  if a + b ≤ 0xFF then some (a + b) else none

/-- `rom.rs`: `Mirroring`. -/
inductive Mirroring
  | vertical
  | horizontal
  | fourScreen
  deriving DecidableEq

/-- `rom.rs`: `Rom<'rom>`; the borrowed byte slices become `List Nat`. -/
structure Rom where
  prgRom : List Nat
  chrRom : List Nat
  mapper : Nat
  mirroring : Mirroring

/-- `bus.rs`: `Bus<'rom>`. The 2 KiB `vram : [u8; 2048]` array is modelled as
a function from index to byte; only indices `< 2048` are ever produced by
`mirrorAddr`. -/
structure Bus where
  vram : Nat → Nat
  rom : Rom

/-- The location a bus address decodes to (the `NonNull<u8>` returned by
`Bus::mirror_addr` points either into `vram` or into `prg_rom`). -/
inductive BusLoc
  | ram (i : Nat)
  | rom (i : Nat)
  deriving DecidableEq

/-- `Bus::mirror_addr`.  Outer `Option`: `none` is the `todo!("PPU is not
supported yet")` panic for the PPU register window.  Inner `Option` is the
source's `Option<NonNull<u8>>` (`none` = unmapped address).
`addr & 0b0000_0111_1111_1111` is written `% 2048`, and `addr % 0x4000`
stays as is. -/
def Bus.mirrorAddr (b : Bus) (addr : Nat) : Option (Option BusLoc) :=
  if addr ≤ 0x1FFF then
    -- RAM_RANGE (0x0000..=0x1FFF): mirror down, then `vram.get`
    let mirrorDownAddr := addr % 2048
    some (if mirrorDownAddr < 2048 then some (.ram mirrorDownAddr) else none)
  else if 0x8000 ≤ addr ∧ addr ≤ 0xFFFF then
    -- ROM_RANGE (0x8000..=0xFFFF)
    let a := addr - 0x8000
    let mirrorDownAddr :=
      if b.rom.prgRom.length = 0x4000 ∧ 0x4000 ≤ a then a % 0x4000 else a
    some (if mirrorDownAddr < b.rom.prgRom.length
          then some (.rom mirrorDownAddr) else none)
  else if 0x2000 ≤ addr ∧ addr ≤ 0x3FFF then
    -- PPU_REGISTER_RANGE (0x2000..=0x3FFF): todo!("PPU is not supported yet")
    none
  else
    some none

/-- Dereference a `BusLoc` (reading through the pointer `mirror_addr`
returned).  A `rom` location is always in bounds by construction. -/
def Bus.readLoc (b : Bus) (loc : BusLoc) : Nat :=
  match loc with
  | .ram i => b.vram i
  | .rom i => b.rom.prgRom.getD i 0

/-- `Bus::mem_read`: unmapped reads log a warning and return 0. -/
def Bus.memRead (b : Bus) (addr : Nat) : Option Nat :=
  match b.mirrorAddr addr with
  | none => none
  | some none => some 0
  | some (some loc) => some (b.readLoc loc)

/-- `Bus::mem_write`: ROM writes are dropped first; then `mirror_mut`
(which may hit the PPU `todo!`); unmapped writes are dropped. -/
def Bus.memWrite (b : Bus) (addr val : Nat) : Option Bus :=
  if 0x8000 ≤ addr ∧ addr ≤ 0xFFFF then
    some b
  else
    match b.mirrorAddr addr with
    | none => none
    | some none => some b
    | some (some (.ram i)) =>
        some { b with vram := fun j => if j = i then val else b.vram j }
    | some (some (.rom _)) => some b

/-- `Bus::mem_read_u16`: two sequential byte reads, low byte first; the
high-byte address is the checked `addr + 1` of the source. -/
def Bus.memReadU16 (b : Bus) (addr : Nat) : Option Nat :=
  match b.memRead addr with
  | none => none
  | some lo =>
    match u16Add addr 1 with
    | none => none
    | some hiAddr =>
      match b.memRead hiAddr with
      | none => none
      | some hi => some (lo + 256 * hi)

/-- `cpu/addr_mode.rs`: `AddressingMode`. -/
inductive AddressingMode
  | immediate
  | zeroPage
  | zeroPageX
  | zeroPageY
  | absolute
  | absoluteX
  | absoluteY
  | indirect
  | indirectX
  | indirectY
  | relative
  | noneAddressing
  deriving DecidableEq

/-- `AddressingMode::size`. -/
def AddressingMode.size : AddressingMode → Nat
  | .noneAddressing => 0
  | .immediate | .zeroPage | .zeroPageX | .zeroPageY
  | .indirectX | .indirectY | .relative => 1
  | .absolute | .absoluteX | .absoluteY | .indirect => 2

/-- `cpu/status.rs` flag bits (`bitflags`). -/
def Status.CARRY : Nat := 0x01

/-- Zero flag bit. -/
def Status.ZERO : Nat := 0x02

/-- Interrupt-disable flag bit. -/
def Status.INTERRUPT_DISABLE : Nat := 0x04

/-- Decimal-mode flag bit. -/
def Status.DECIMAL_MODE : Nat := 0x08

/-- Break flag bit. -/
def Status.BREAK : Nat := 0x10

/-- Bit 5, called `BREAK2` in `cpu/status.rs` and `UNUSED` at its use sites
(`opcode/stack.rs`, `tests/nestest.rs`); the same bit either way. -/
def Status.UNUSED : Nat := 0x20

/-- Overflow flag bit. -/
def Status.OVERFLOW : Nat := 0x40

/-- Negative flag bit. -/
def Status.NEGATIVE : Nat := 0x80

/-- `impl Default for Status`: the `INTERRUPT_DISABLE | UNUSED` line is
commented out in the source; the default is `Status::empty()`. -/
def Status.default : Nat := 0

/-- `bitflags` `Status::set(flag, b)`: insert on `true`, remove on `false`;
`!flag` complements within the 8 defined bits. -/
def statusSet (s flag : Nat) (b : Bool) : Nat :=
  if b then s ||| flag else s &&& (0xFF ^^^ flag)

/-- `cpu/mod.rs`: `Cpu<'rom>`.  `status` is the raw flag byte. -/
structure Cpu where
  regA : Nat
  regX : Nat
  regY : Nat
  status : Nat
  sp : Nat
  pc : Nat
  bus : Bus

/-- `bitflags` `Status::contains(flag)`: all bits of `flag` present. -/
def Cpu.statusContains (c : Cpu) (flag : Nat) : Bool :=
  c.status &&& flag == flag

/-- `Cpu::STACK`. -/
def Cpu.STACK : Nat := 0x0100

/-- `Cpu::STACK_RESET`. -/
def Cpu.STACK_RESET : Nat := 0xFD

/-- `Cpu::new`: registers zeroed, default status, `SP = 0xFD`,
`PC = bus.mem_read_u16(0xFFFC)` (whose byte reads can in principle panic,
hence the `Option`). -/
def Cpu.new (bus : Bus) : Option Cpu :=
  match bus.memReadU16 0xFFFC with
  | none => none
  | some pc =>
    some { regA := 0, regX := 0, regY := 0, status := Status.default,
           sp := Cpu.STACK_RESET, pc := pc, bus := bus }

/-- `Cpu::reset`: rebuilds the CPU from its own bus (`replace_with`),
keeping memory intact. -/
def Cpu.reset (c : Cpu) : Option Cpu :=
  Cpu.new c.bus

/-- `Cpu::take`: read the byte at PC, then `pc.wrapping_add(1)`. -/
def Cpu.take (c : Cpu) : Option (Nat × Cpu) :=
  match c.bus.memRead c.pc with
  | none => none
  | some byte => some (byte, { c with pc := (c.pc + 1) % 65536 })

/-- `Cpu::take_u16`: read the little-endian word at PC, then
`pc.wrapping_add(2)`. -/
def Cpu.takeU16 (c : Cpu) : Option (Nat × Cpu) :=
  match c.bus.memReadU16 c.pc with
  | none => none
  | some num => some (num, { c with pc := (c.pc + 2) % 65536 })

/-- `Cpu::get_op_addr`.  `NoneAddressing` hits `unreachable!`, a panic.
`IndirectX` is the source's
`mem_read_u16(operand).wrapping_add(reg_x) % 0xFF` (`% 0xFF` is mod 255),
`Relative` the source's `pc.wrapping_add(u16::from(offset))` where `pc`
has already advanced past the offset byte (a zero-extending add). -/
def Cpu.getOpAddr (c : Cpu) (mode : AddressingMode) : Option (Nat × Cpu) :=
  match mode with
  | .immediate => some (c.pc, { c with pc := (c.pc + 1) % 65536 })
  | .zeroPage => c.take
  | .zeroPageX =>
    match c.take with
    | none => none
    | some (b, c') => some ((b + c.regX) % 256, c')
  | .zeroPageY =>
    match c.take with
    | none => none
    | some (b, c') => some ((b + c.regY) % 256, c')
  | .absolute => c.takeU16
  | .absoluteX =>
    match c.takeU16 with
    | none => none
    | some (w, c') => some ((w + c.regX) % 65536, c')
  | .absoluteY =>
    match c.takeU16 with
    | none => none
    | some (w, c') => some ((w + c.regY) % 65536, c')
  | .indirect =>
    match c.takeU16 with
    | none => none
    | some (realAddr, c') =>
      match c'.bus.memReadU16 realAddr with
      | none => none
      | some v => some (v, c')
  | .indirectX =>
    match c.take with
    | none => none
    | some (realAddr, c') =>
      match c'.bus.memReadU16 realAddr with
      | none => none
      | some v => some (((v + c.regX) % 65536) % 0xFF, c')
  | .indirectY =>
    match c.take with
    | none => none
    | some (realAddr, c') =>
      match c'.bus.memReadU16 realAddr with
      | none => none
      | some v => some ((v + c.regY) % 65536, c')
  | .relative =>
    match c.take with
    | none => none
    | some (offset, c') => some ((c'.pc + offset) % 65536, c')
  | .noneAddressing => none

/-- `Cpu::zero_and_neg_flags`. -/
def Cpu.zeroAndNegFlags (c : Cpu) (val : Nat) : Cpu :=
  let s1 := if val = 0 then c.status ||| Status.ZERO
            else c.status &&& (0xFF ^^^ Status.ZERO)
  let s2 := if val &&& 0x80 ≠ 0 then s1 ||| Status.NEGATIVE
            else s1 &&& (0xFF ^^^ Status.NEGATIVE)
  { c with status := s2 }

/-- `Cpu::set_reg_a`. -/
def Cpu.setRegA (c : Cpu) (val : Nat) : Cpu :=
  Cpu.zeroAndNegFlags { c with regA := val } val

/-- `Cpu::push`: store at `STACK.saturating_add(sp)`, then
`sp.wrapping_sub(1)`. -/
def Cpu.push (c : Cpu) (val : Nat) : Option Cpu :=
  match c.bus.memWrite (min (Cpu.STACK + c.sp) 0xFFFF) val with
  | none => none
  | some bus' => some { c with bus := bus', sp := (c.sp + 255) % 256 }

/-- `Cpu::push_u16`: high byte pushed first, then low. -/
def Cpu.pushU16 (c : Cpu) (val : Nat) : Option Cpu :=
  match c.push (val / 256 % 256) with
  | none => none
  | some c1 => c1.push (val % 256)

/-- `Cpu::pop`: `sp.wrapping_add(1)` first, then load from
`STACK.saturating_add(sp)`. -/
def Cpu.pop (c : Cpu) : Option (Nat × Cpu) :=
  let sp' := (c.sp + 1) % 256
  match c.bus.memRead (min (Cpu.STACK + sp') 0xFFFF) with
  | none => none
  | some v => some (v, { c with sp := sp' })

/-- `Cpu::pop_u16`: low byte popped first. -/
def Cpu.popU16 (c : Cpu) : Option (Nat × Cpu) :=
  match c.pop with
  | none => none
  | some (lo, c1) =>
    match c1.pop with
    | none => none
    | some (hi, c2) => some (lo + 256 * hi, c2)

/-- `opcode/branch.rs`: `branch_if`. -/
def branchIf (c : Cpu) (mode : AddressingMode) (cond : Bool) : Option Cpu :=
  match c.getOpAddr mode with
  | none => none
  | some (addr, c') => some (if cond then { c' with pc := addr } else c')

/-- `branch.rs`: `bcc`. -/
def bcc (c : Cpu) (mode : AddressingMode) : Option Cpu :=
  branchIf c mode (!c.statusContains Status.CARRY)

/-- `branch.rs`: `bcs`. -/
def bcs (c : Cpu) (mode : AddressingMode) : Option Cpu :=
  branchIf c mode (c.statusContains Status.CARRY)

/-- `branch.rs`: `beq`. -/
def beq (c : Cpu) (mode : AddressingMode) : Option Cpu :=
  branchIf c mode (c.statusContains Status.ZERO)

/-- `branch.rs`: `bne`. -/
def bne (c : Cpu) (mode : AddressingMode) : Option Cpu :=
  branchIf c mode (!c.statusContains Status.ZERO)

/-- `branch.rs`: `bmi`. -/
def bmi (c : Cpu) (mode : AddressingMode) : Option Cpu :=
  branchIf c mode (c.statusContains Status.NEGATIVE)

/-- `branch.rs`: `bpl`. -/
def bpl (c : Cpu) (mode : AddressingMode) : Option Cpu :=
  branchIf c mode (!c.statusContains Status.NEGATIVE)

/-- `branch.rs`: `bvs`. -/
def bvs (c : Cpu) (mode : AddressingMode) : Option Cpu :=
  branchIf c mode (c.statusContains Status.OVERFLOW)

/-- `branch.rs`: `bvc`. -/
def bvc (c : Cpu) (mode : AddressingMode) : Option Cpu :=
  branchIf c mode (!c.statusContains Status.OVERFLOW)

/-- `opcode/jmp.rs`: `jmp`. -/
def jmp (c : Cpu) (mode : AddressingMode) : Option Cpu :=
  match c.getOpAddr mode with
  | none => none
  | some (addr, c') => some { c' with pc := addr }

/-- `opcode/jmp.rs`: `jsr` — resolves the target (PC advances past the
operand), pushes the advanced PC, then jumps. -/
def jsr (c : Cpu) (mode : AddressingMode) : Option Cpu :=
  match c.getOpAddr mode with
  | none => none
  | some (addr, c1) =>
    match c1.pushU16 c1.pc with
    | none => none
    | some c2 => some { c2 with pc := addr }

/-- `opcode/jmp.rs`: `rts` — pops 16 bits and sets PC to them. -/
def rts (c : Cpu) (_mode : AddressingMode) : Option Cpu :=
  match c.popU16 with
  | none => none
  | some (addr, c') => some { c' with pc := addr }

/-- `opcode/stack.rs`: `php` — pushes `(status | BREAK | UNUSED).bits()`. -/
def php (c : Cpu) (_mode : AddressingMode) : Option Cpu :=
  c.push (c.status ||| Status.BREAK ||| Status.UNUSED)

/-- `opcode/stack.rs`: `plp` — `Status::from_bits_truncate(pop())`; all
eight bits are defined flags, so truncation keeps the whole byte. -/
def plp (c : Cpu) (_mode : AddressingMode) : Option Cpu :=
  match c.pop with
  | none => none
  | some (v, c') => some { c' with status := v &&& 0xFF }

/-- `opcode/arrith.rs`: `op_with_carry` — shared core of ADC (`add = true`)
and SBC (`add = false`; the operand becomes `255 - val`).  Carry-in is the
status CARRY bit read before the sums; `overflowing_add` on `u8` is the
`% 256` sum plus a `≥ 256` carry test; the overflow bit is
`(!(val ^ orig_a) & (val ^ out)) & 0x80 ≠ 0` with `!` the `u8`
complement. -/
def opWithCarry (c : Cpu) (mode : AddressingMode) (add : Bool) : Option Cpu :=
  match c.getOpAddr mode with
  | none => none
  | some (addr, c1) =>
    match c1.bus.memRead addr with
    | none => none
    | some val0 =>
      let val := if add then val0 else 255 - val0
      let origA := c1.regA
      let init := (c1.regA + val) % 256
      let firstCarry : Bool := decide (256 ≤ c1.regA + val)
      let carryIn := if c1.statusContains Status.CARRY then 1 else 0
      let out := (init + carryIn) % 256
      let secondCarry : Bool := decide (256 ≤ init + carryIn)
      let c2 := c1.setRegA out
      let c3 := { c2 with
        status := statusSet c2.status Status.CARRY (firstCarry || secondCarry) }
      some { c3 with
        status := statusSet c3.status Status.OVERFLOW
          (((0xFF ^^^ (val ^^^ origA)) &&& (val ^^^ out)) &&& 0x80 ≠ 0) }

/-- `opcode/arrith.rs`: `adc`. -/
def adc (c : Cpu) (mode : AddressingMode) : Option Cpu :=
  opWithCarry c mode true

/-- `opcode/arrith.rs`: `sbc`. -/
def sbc (c : Cpu) (mode : AddressingMode) : Option Cpu :=
  opWithCarry c mode false

/-- `opcode/mod.rs`: one record of the `OPCODES` table.  The handler
function pointer `op` of the source record is not carried here (the
handlers that claims mention are embedded as standalone functions above);
`name` is the `stringify!`-ed handler name. -/
structure OpCode where
  code : Nat
  name : String
  mode : AddressingMode
  bytes : Nat
  cycles : Nat
  deriving DecidableEq

/-- `opcode/mod.rs`: the full `OPCODES` table, every entry transcribed from
the `opcodes!` invocation in source order. -/
def OPCODES : List OpCode := [
  OpCode.mk 0xA9 "lda" .immediate 2 2,
  OpCode.mk 0xA5 "lda" .zeroPage 2 3,
  OpCode.mk 0xB5 "lda" .zeroPageX 2 4,
  OpCode.mk 0xAD "lda" .absolute 3 4,
  OpCode.mk 0xBD "lda" .absoluteX 3 4,
  OpCode.mk 0xB9 "lda" .absoluteY 3 4,
  OpCode.mk 0xA1 "lda" .indirectX 2 6,
  OpCode.mk 0xB1 "lda" .indirectY 2 5,
  OpCode.mk 0xA2 "ldx" .immediate 2 2,
  OpCode.mk 0xA6 "ldx" .zeroPage 2 3,
  OpCode.mk 0xB6 "ldx" .zeroPageY 2 4,
  OpCode.mk 0xAE "ldx" .absolute 3 4,
  OpCode.mk 0xBE "ldx" .absoluteY 3 4,
  OpCode.mk 0xA0 "ldy" .immediate 2 2,
  OpCode.mk 0xA4 "ldy" .zeroPage 2 3,
  OpCode.mk 0xB4 "ldy" .zeroPageX 2 4,
  OpCode.mk 0xAC "ldy" .absolute 3 4,
  OpCode.mk 0xBC "ldy" .absoluteX 3 4,
  OpCode.mk 0x85 "sta" .zeroPage 2 3,
  OpCode.mk 0x95 "sta" .zeroPageX 2 4,
  OpCode.mk 0x8D "sta" .absolute 3 4,
  OpCode.mk 0x9D "sta" .absoluteX 3 5,
  OpCode.mk 0x99 "sta" .absoluteY 3 5,
  OpCode.mk 0x81 "sta" .indirectX 2 6,
  OpCode.mk 0x91 "sta" .indirectY 2 6,
  OpCode.mk 0x86 "stx" .zeroPage 2 3,
  OpCode.mk 0x96 "stx" .zeroPageY 2 4,
  OpCode.mk 0x8E "stx" .absolute 3 4,
  OpCode.mk 0x84 "sty" .zeroPage 2 3,
  OpCode.mk 0x94 "sty" .zeroPageX 2 4,
  OpCode.mk 0x8C "sty" .absolute 3 4,
  OpCode.mk 0xAA "tax" .noneAddressing 1 2,
  OpCode.mk 0xA8 "tay" .noneAddressing 1 2,
  OpCode.mk 0x8A "txa" .noneAddressing 1 2,
  OpCode.mk 0x98 "tya" .noneAddressing 1 2,
  OpCode.mk 0x9A "txs" .noneAddressing 1 2,
  OpCode.mk 0xBA "tsx" .noneAddressing 1 2,
  OpCode.mk 0x48 "pha" .noneAddressing 1 3,
  OpCode.mk 0x68 "pla" .noneAddressing 1 3,
  OpCode.mk 0x08 "php" .noneAddressing 1 3,
  OpCode.mk 0x28 "plp" .noneAddressing 1 3,
  OpCode.mk 0xE8 "inx" .noneAddressing 1 2,
  OpCode.mk 0xC8 "iny" .noneAddressing 1 2,
  OpCode.mk 0xE6 "inc" .zeroPage 2 5,
  OpCode.mk 0xF6 "inc" .zeroPageX 2 6,
  OpCode.mk 0xEE "inc" .absolute 3 6,
  OpCode.mk 0xFE "inc" .absoluteX 3 7,
  OpCode.mk 0xCA "dex" .noneAddressing 1 2,
  OpCode.mk 0x88 "dey" .noneAddressing 1 2,
  OpCode.mk 0xC6 "dec" .zeroPage 2 5,
  OpCode.mk 0xD6 "dec" .zeroPageX 2 6,
  OpCode.mk 0xCE "dec" .absolute 3 6,
  OpCode.mk 0xDE "dec" .absoluteX 3 7,
  OpCode.mk 0x69 "adc" .immediate 2 2,
  OpCode.mk 0x65 "adc" .zeroPage 2 3,
  OpCode.mk 0x75 "adc" .zeroPageX 2 4,
  OpCode.mk 0x6D "adc" .absolute 3 4,
  OpCode.mk 0x7D "adc" .absoluteX 3 4,
  OpCode.mk 0x79 "adc" .absoluteY 3 4,
  OpCode.mk 0x61 "adc" .indirectX 2 6,
  OpCode.mk 0x71 "adc" .indirectY 2 5,
  OpCode.mk 0xE9 "sbc" .immediate 2 2,
  OpCode.mk 0xE5 "sbc" .zeroPage 2 3,
  OpCode.mk 0xF5 "sbc" .zeroPageX 2 4,
  OpCode.mk 0xED "sbc" .absolute 3 4,
  OpCode.mk 0xFD "sbc" .absoluteX 3 4,
  OpCode.mk 0xF9 "sbc" .absoluteY 3 4,
  OpCode.mk 0xE1 "sbc" .indirectX 2 6,
  OpCode.mk 0xF1 "sbc" .indirectY 2 5,
  OpCode.mk 0xC9 "cmp" .immediate 2 2,
  OpCode.mk 0xC5 "cmp" .zeroPage 2 3,
  OpCode.mk 0xD5 "cmp" .zeroPageX 2 4,
  OpCode.mk 0xCD "cmp" .absolute 3 4,
  OpCode.mk 0xDD "cmp" .absoluteX 3 4,
  OpCode.mk 0xD9 "cmp" .absoluteY 3 4,
  OpCode.mk 0xC1 "cmp" .indirectX 2 6,
  OpCode.mk 0xD1 "cmp" .indirectY 2 5,
  OpCode.mk 0xE0 "cpx" .immediate 2 2,
  OpCode.mk 0xE4 "cpx" .zeroPage 2 3,
  OpCode.mk 0xEC "cpx" .absolute 3 4,
  OpCode.mk 0xC0 "cpy" .immediate 2 2,
  OpCode.mk 0xC4 "cpy" .zeroPage 2 3,
  OpCode.mk 0xCC "cpy" .absolute 3 4,
  OpCode.mk 0x29 "and" .immediate 2 2,
  OpCode.mk 0x25 "and" .zeroPage 2 3,
  OpCode.mk 0x35 "and" .zeroPageX 2 4,
  OpCode.mk 0x2D "and" .absolute 3 4,
  OpCode.mk 0x3D "and" .absoluteX 3 4,
  OpCode.mk 0x39 "and" .absoluteY 3 4,
  OpCode.mk 0x21 "and" .indirectX 2 6,
  OpCode.mk 0x31 "and" .indirectY 2 5,
  OpCode.mk 0x49 "eor" .immediate 2 2,
  OpCode.mk 0x45 "eor" .zeroPage 2 3,
  OpCode.mk 0x55 "eor" .zeroPageX 2 4,
  OpCode.mk 0x4D "eor" .absolute 3 4,
  OpCode.mk 0x5D "eor" .absoluteX 3 4,
  OpCode.mk 0x59 "eor" .absoluteY 3 4,
  OpCode.mk 0x41 "eor" .indirectX 2 6,
  OpCode.mk 0x51 "eor" .indirectY 2 5,
  OpCode.mk 0x09 "ora" .immediate 2 2,
  OpCode.mk 0x05 "ora" .zeroPage 2 3,
  OpCode.mk 0x15 "ora" .zeroPageX 2 4,
  OpCode.mk 0x0D "ora" .absolute 3 4,
  OpCode.mk 0x1D "ora" .absoluteX 3 4,
  OpCode.mk 0x19 "ora" .absoluteY 3 4,
  OpCode.mk 0x01 "ora" .indirectX 2 6,
  OpCode.mk 0x11 "ora" .indirectY 2 5,
  OpCode.mk 0x24 "bit" .zeroPage 2 3,
  OpCode.mk 0x2C "bit" .absolute 3 4,
  OpCode.mk 0x0A "asl" .noneAddressing 1 2,
  OpCode.mk 0x06 "asl" .zeroPage 2 5,
  OpCode.mk 0x16 "asl" .zeroPageX 2 6,
  OpCode.mk 0x0E "asl" .absolute 3 6,
  OpCode.mk 0x1E "asl" .absoluteX 3 7,
  OpCode.mk 0x4A "lsr" .noneAddressing 1 2,
  OpCode.mk 0x46 "lsr" .zeroPage 2 5,
  OpCode.mk 0x56 "lsr" .zeroPageX 2 6,
  OpCode.mk 0x4E "lsr" .absolute 3 6,
  OpCode.mk 0x5E "lsr" .absoluteX 3 7,
  OpCode.mk 0x2A "rol" .noneAddressing 1 2,
  OpCode.mk 0x26 "rol" .zeroPage 2 5,
  OpCode.mk 0x36 "rol" .zeroPageX 2 6,
  OpCode.mk 0x2E "rol" .absolute 3 6,
  OpCode.mk 0x3E "rol" .absoluteX 3 7,
  OpCode.mk 0x6A "ror" .noneAddressing 1 2,
  OpCode.mk 0x66 "ror" .zeroPage 2 5,
  OpCode.mk 0x76 "ror" .zeroPageX 2 6,
  OpCode.mk 0x6E "ror" .absolute 3 6,
  OpCode.mk 0x7E "ror" .absoluteX 3 7,
  OpCode.mk 0x90 "bcc" .relative 2 2,
  OpCode.mk 0xB0 "bcs" .relative 2 2,
  OpCode.mk 0xF0 "beq" .relative 2 2,
  OpCode.mk 0xD0 "bne" .relative 2 2,
  OpCode.mk 0x30 "bmi" .relative 2 2,
  OpCode.mk 0x10 "bpl" .relative 2 2,
  OpCode.mk 0x50 "bvc" .relative 2 2,
  OpCode.mk 0x70 "bvs" .relative 2 2,
  OpCode.mk 0x4C "jmp" .absolute 1 3,
  OpCode.mk 0x6C "jmp" .indirect 1 5,
  OpCode.mk 0x20 "jsr" .absolute 3 6,
  OpCode.mk 0x60 "rts" .noneAddressing 1 6,
  OpCode.mk 0x38 "sec" .noneAddressing 1 2,
  OpCode.mk 0x18 "clc" .noneAddressing 1 2,
  OpCode.mk 0xF8 "sed" .noneAddressing 1 2,
  OpCode.mk 0xD8 "cld" .noneAddressing 1 2,
  OpCode.mk 0x78 "sei" .noneAddressing 1 2,
  OpCode.mk 0x58 "cli" .noneAddressing 1 2,
  OpCode.mk 0xB8 "clv" .noneAddressing 1 2,
  OpCode.mk 0x40 "rti" .noneAddressing 1 6,
  OpCode.mk 0xEA "nop" .noneAddressing 1 2,
  OpCode.mk 0x00 "brk" .noneAddressing 1 7
]

/-- `phf` map lookup `OPCODES.get(&byte)`: the keys are pairwise distinct,
so a first-match scan is an equivalent map. -/
def opcodesGet (b : Nat) : Option OpCode :=
  OPCODES.find? (fun e => e.code = b)

/-- One uppercase hexadecimal digit. -/
def hexDigit (n : Nat) : Char :=
  if n < 10 then Char.ofNat (48 + n) else Char.ofNat (55 + n)

/-- `{:02X}` of a byte. -/
def hex2 (n : Nat) : String :=
  String.mk [hexDigit (n / 16 % 16), hexDigit (n % 16)]

/-- `{:04X}` of a 16-bit word. -/
def hex4 (n : Nat) : String :=
  String.mk [hexDigit (n / 4096 % 16), hexDigit (n / 256 % 16),
             hexDigit (n / 16 % 16), hexDigit (n % 16)]

/-- A run of `n` spaces (the padding loops of the `Display` impls). -/
def spaces (n : Nat) : String :=
  String.mk (List.replicate n ' ')

/-- ASCII-uppercase a mnemonic (`DisplayUppercase` in `cpu/trace.rs`). -/
def upperAscii (s : String) : String :=
  String.mk (s.data.map Char.toUpper)

/-- `cpu/trace.rs`: the operand-text part of `TraceAddrMode`'s `Display`
impl, before padding: the rendered text plus the `out_size` counter the
source accumulates from the template literals.  `none` is a panic: the
`pc + 1` / `mem_read(pc) + 1` overflow checks, a read that hits the PPU
`todo!`, the catch-all `todo!(..)` arm (`ZeroPageY`, `AbsoluteX`,
`AbsoluteY`, `Indirect`, `IndirectY`), or the trailing
`assert_eq!(got_addr, real_addr)` failing. -/
def traceAddrModeFmt (cpu : Cpu) (op : OpCode) : Option (String × Nat) :=
  if op.mode = .noneAddressing then some ("", 0) else
  match u16Add cpu.pc 1 with
  | none => none
  | some pc =>
    match Cpu.getOpAddr { cpu with pc := pc } op.mode with
    | none => none
    | some (realAddr, _) =>
      let arm : Option (Nat × String × Nat) :=
        match op.mode with
        | .immediate =>
          match cpu.bus.memRead pc with
          | none => none
          | some val => some (pc, "#$" ++ hex2 val, 4)
        | .zeroPage =>
          match cpu.bus.memRead pc with
          | none => none
          | some addr =>
            match cpu.bus.memRead addr with
            | none => none
            | some val =>
              some (addr, "$" ++ hex2 addr ++ " = " ++ hex2 val, 8)
        | .zeroPageX =>
          match cpu.bus.memRead pc with
          | none => none
          | some addr =>
            let withX := (addr + cpu.regX) % 256
            match cpu.bus.memRead withX with
            | none => none
            | some val =>
              some (withX, "$" ++ hex2 addr ++ ",X @ " ++ hex2 withX
                           ++ " = " ++ hex2 val, 15)
        | .indirectX =>
          match cpu.bus.memRead pc with
          | none => none
          | some addr =>
            let withX := (addr + cpu.regX) % 256
            match cpu.bus.memReadU16 withX with
            | none => none
            | some realA =>
              match cpu.bus.memRead realA with
              | none => none
              | some val =>
                some (realA, "($" ++ hex2 addr ++ ",X) @ " ++ hex2 withX
                             ++ " = " ++ hex4 realA ++ " = " ++ hex2 val, 24)
        | .relative =>
          match cpu.bus.memRead pc with
          | none => none
          | some o =>
            match u8Add o 1 with
            | none => none
            | some addend =>
              match u16Add pc addend with
              | none => none
              | some addr => some (addr, "$" ++ hex4 addr, 5)
        | .absolute =>
          match cpu.bus.memReadU16 pc with
          | none => none
          | some addr =>
            if op.code = 0x4C ∨ op.code = 0x20 then
              some (addr, "$" ++ hex4 addr, 5)
            else
              match cpu.bus.memRead addr with
              | none => none
              | some val =>
                some (addr, "$" ++ hex4 addr ++ " = " ++ hex2 val, 10)
        | _ => none
      match arm with
      | none => none
      | some (gotAddr, text, sz) =>
        if gotAddr = realAddr then some (text, sz) else none

/-- `cpu/trace.rs`: `TraceBytes`'s `Display` impl — the opcode byte and its
operands, each rendered as a leading space plus two hex digits, padded to
`width` (the `{:10}` of `TraceOp`). -/
def traceBytes (cpu : Cpu) (op : OpCode) (width : Nat) : Option String :=
  let opSize := op.mode.size + 1
  match (List.range opSize).foldl
      (fun acc i =>
        match acc with
        | none => none
        | some s =>
          match u16Add cpu.pc i with
          | none => none
          | some a =>
            match cpu.bus.memRead a with
            | none => none
            | some v => some (s ++ " " ++ hex2 v))
      (some "") with
  | none => none
  | some s => some (s ++ spaces (width - opSize * 3))

/-- `cpu/trace.rs`: `TraceOp::new` followed by its `Display` impl (one
whole trace line).  Outer `none` is a panic while formatting; the inner
`none` is `TraceOp::new` returning `None` for an unknown opcode. -/
def traceOp (cpu : Cpu) : Option (Option String) :=
  match cpu.bus.memRead cpu.pc with
  | none => none
  | some b =>
    match opcodesGet b with
    | none => some none
    | some op =>
      match traceBytes cpu op 10 with
      | none => none
      | some bytesStr =>
        match traceAddrModeFmt cpu op with
        | none => none
        | some (amText, amSize) =>
          some (some (hex4 cpu.pc ++ " " ++ bytesStr ++ " "
            ++ upperAscii op.name ++ " " ++ (amText ++ spaces (27 - amSize))
            ++ " A:" ++ hex2 cpu.regA ++ " X:" ++ hex2 cpu.regX
            ++ " Y:" ++ hex2 cpu.regY ++ " P:" ++ hex2 cpu.status
            ++ " SP:" ++ hex2 cpu.sp))

/-- Modelled from the spec (§4.4, claim C4's reference semantics; the code
under test is `Cpu.getOpAddr .indirectX`): IndirectX first adds X to the
zero-page operand modulo 256 to get `ptr`, then reads the 16-bit pointer
whose high byte comes from `(ptr + 1) mod 256`. -/
def specIndirectX (c : Cpu) : Option (Nat × Cpu) :=
  match c.take with
  | none => none
  | some (b, c') =>
    let ptr := (b + c.regX) % 256
    match c'.bus.memRead ptr with
    | none => none
    | some lo =>
      match c'.bus.memRead ((ptr + 1) % 256) with
      | none => none
      | some hi => some (lo + 256 * hi, c')

/-- Modelled from the spec (§4.4, claim C4's reference semantics):
IndirectY reads the 16-bit base at the zero-page operand, the high byte
wrapping inside the zero page, then adds Y modulo 2^16. -/
def specIndirectY (c : Cpu) : Option (Nat × Cpu) :=
  match c.take with
  | none => none
  | some (b, c') =>
    match c'.bus.memRead (b % 256) with
    | none => none
    | some lo =>
      match c'.bus.memRead ((b + 1) % 256) with
      | none => none
      | some hi => some ((lo + 256 * hi + c.regY) % 65536, c')

/-- The register/flag state `op_with_carry` leaves once the operand byte
is in hand: the ADC data path applied to the already-advanced CPU `c1`
and the (possibly complemented) operand `val`.  This names the common
result so the SBC/ADC duality can be stated. -/
def adcStep (c1 : Cpu) (val : Nat) : Cpu :=
  let origA := c1.regA
  let init := (c1.regA + val) % 256
  let firstCarry : Bool := decide (256 ≤ c1.regA + val)
  let carryIn := if c1.statusContains Status.CARRY then 1 else 0
  let out := (init + carryIn) % 256
  let secondCarry : Bool := decide (256 ≤ init + carryIn)
  let c2 := c1.setRegA out
  let c3 := { c2 with
    status := statusSet c2.status Status.CARRY (firstCarry || secondCarry) }
  { c3 with
    status := statusSet c3.status Status.OVERFLOW
      (((0xFF ^^^ (val ^^^ origA)) &&& (val ^^^ out)) &&& 0x80 ≠ 0) }

/-- An empty cartridge for the concrete test states. -/
def romEmpty : Rom :=
  { prgRom := [], chrRom := [], mapper := 0, mirroring := .horizontal }

/-- RAM seeded for claim C1: a branch offset byte `0x80` at `$0010`. -/
def busC1 : Bus :=
  { vram := fun i => if i = 0x10 then 0x80 else 0, rom := romEmpty }

/-- CPU about to resolve the Relative operand at `$0010`, carry set. -/
def cpuC1 : Cpu :=
  { regA := 0, regX := 0, regY := 0, status := Status.CARRY,
    sp := 0xFD, pc := 0x0010, bus := busC1 }

/-- RAM seeded per spec scenario E7: operand pointer `$02FF`,
`$02FF = 0x34`, `$0200 = 0x12`, `$0300 = 0xCC`. -/
def busC2 : Bus :=
  { vram := fun i =>
      if i = 0x0000 then 0xFF else if i = 0x0001 then 0x02
      else if i = 0x02FF then 0x34 else if i = 0x0200 then 0x12
      else if i = 0x0300 then 0xCC else 0,
    rom := romEmpty }

/-- CPU about to execute the operand of `JMP ($02FF)`. -/
def cpuC2 : Cpu :=
  { regA := 0, regX := 0, regY := 0, status := 0,
    sp := 0xFD, pc := 0, bus := busC2 }

/-- All-zero RAM over the empty cartridge. -/
def busZero : Bus :=
  { vram := fun _ => 0, rom := romEmpty }

/-- The state of the repository's own `op_addr_indirect_x` test: operand
byte `0x12`, zero-page word at `$0012` = `$00FF`, `X = 5`. -/
def busC4 : Bus :=
  { vram := fun i => if i = 0x00 then 0x12 else if i = 0x12 then 0xFF else 0,
    rom := romEmpty }

/-- CPU for the IndirectX divergence. -/
def cpuC4 : Cpu :=
  { regA := 0, regX := 5, regY := 0, status := 0,
    sp := 0xFD, pc := 0, bus := busC4 }

/-- RAM for the IndirectY zero-page-wrap divergence: operand byte `0xFF`
at `$0020`, base low byte at `$00FF`, and the byte the code (but not the
spec) takes as high byte at `$0100`. -/
def busC4y : Bus :=
  { vram := fun i =>
      if i = 0x20 then 0xFF else if i = 0xFF then 0x34
      else if i = 0x100 then 0x12 else 0,
    rom := romEmpty }

/-- CPU for the IndirectY divergence (`Y = 0`, operand at `$0020`). -/
def cpuC4y : Cpu :=
  { regA := 0, regX := 0, regY := 0, status := 0,
    sp := 0xFD, pc := 0x20, bus := busC4y }

/-- CPU whose next stack byte (at `$01FE`) is `0xFF`, for PLP. -/
def cpuC7 : Cpu :=
  { regA := 0, regX := 0, regY := 0, status := 0, sp := 0xFD, pc := 0,
    bus := { vram := fun i => if i = 0x1FE then 0xFF else 0, rom := romEmpty } }

/-- RAM holding a 16-bit JSR target `$1234` at `$0000`. -/
def busC6 : Bus :=
  { vram := fun i => if i = 0 then 0x34 else if i = 1 then 0x12 else 0,
    rom := romEmpty }

/-- CPU about to resolve the JSR operand at `$0000`. -/
def cpuC6 : Cpu :=
  { regA := 0, regX := 0, regY := 0, status := 0,
    sp := 0xFD, pc := 0, bus := busC6 }

/-- CPU for the ADC/SBC witness: `A = 5`, carry set, operand byte 5 at
PC. -/
def cpuC9 : Cpu :=
  { regA := 5, regX := 0, regY := 0, status := Status.CARRY,
    sp := 0xFD, pc := 0,
    bus := { vram := fun i => if i = 0 then 5 else 0, rom := romEmpty } }

/-- RAM for the tracer witnesses: zero page seeded so that every
implemented operand format renders (and passes the internal
`assert_eq!`). -/
def busTr : Bus :=
  { vram := fun i => if i = 1 then 0x05 else if i = 2 then 0x10 else if i = 5 then 0x20 else 0,
    rom := romEmpty }

/-- CPU for the tracer witnesses. -/
def cpuTr : Cpu :=
  { regA := 0, regX := 0, regY := 0, status := 0, sp := 0xFD, pc := 0,
    bus := busTr }

/-- CPU whose Relative operand byte is `0xFF` (the trace-time overflow). -/
def cpuRelFF : Cpu :=
  { regA := 0, regX := 0, regY := 0, status := 0, sp := 0xFD, pc := 0,
    bus := { vram := fun i => if i = 1 then 0xFF else 0, rom := romEmpty } }

/-- CPU sitting on an `LDA abs,X` opcode (`0xBD`), an addressing mode the
tracer does not implement. -/
def cpuTrBD : Cpu :=
  { regA := 0, regX := 0, regY := 0, status := 0, sp := 0xFD, pc := 0,
    bus := { vram := fun i => if i = 0 then 0xBD else 0, rom := romEmpty } }

/-! ### Helper lemmas -/

/-- Outside the PPU register window, `mirror_addr` cannot hit the
`todo!` panic. -/
theorem mirrorAddr_ne_none (b : Bus) (a : Nat)
    (h : ¬(0x2000 ≤ a ∧ a ≤ 0x3FFF)) : b.mirrorAddr a ≠ none := by
  unfold Bus.mirrorAddr
  split_ifs <;> simp_all

/-- Outside the PPU register window, `mem_read` returns a byte. -/
theorem memRead_isSome (b : Bus) (a : Nat)
    (h : ¬(0x2000 ≤ a ∧ a ≤ 0x3FFF)) : ∃ u, b.memRead a = some u := by
  have hm := mirrorAddr_ne_none b a h
  unfold Bus.memRead
  rcases hmm : b.mirrorAddr a with _ | ol
  · exact absurd hmm hm
  · rcases ol with _ | loc
    · exact ⟨0, rfl⟩
    · exact ⟨b.readLoc loc, rfl⟩

/-- Outside the PPU register window, `mem_write` does not panic. -/
theorem memWrite_isSome (b : Bus) (a v : Nat)
    (h : ¬(0x2000 ≤ a ∧ a ≤ 0x3FFF)) : ∃ b', b.memWrite a v = some b' := by
  unfold Bus.memWrite
  by_cases hrom : 0x8000 ≤ a ∧ a ≤ 0xFFFF
  · exact ⟨b, by simp [hrom]⟩
  · have hm := mirrorAddr_ne_none b a h
    rcases hmm : b.mirrorAddr a with _ | ol
    · exact absurd hmm hm
    · rcases ol with _ | loc
      · exact ⟨b, by simp [hrom]⟩
      · rcases loc with i | i
        · exact ⟨{ b with vram := fun j => if j = i then v else b.vram j },
                 by simp [hrom]⟩
        · exact ⟨b, by simp [hrom]⟩

/-- Writes at and above `$4000` (unmapped and cartridge ROM) are
dropped: the bus is returned unchanged. -/
theorem memWrite_dropped (b : Bus) (a v : Nat) (ha : a ≤ 0xFFFF)
    (h4 : 0x4000 ≤ a) : b.memWrite a v = some b := by
  unfold Bus.memWrite
  by_cases hrom : 0x8000 ≤ a ∧ a ≤ 0xFFFF
  · simp [hrom]
  · have hram : ¬(a ≤ 0x1FFF) := by omega
    have hppu : ¬(0x2000 ≤ a ∧ a ≤ 0x3FFF) := by omega
    unfold Bus.mirrorAddr
    simp [hram, hrom, hppu]

/-- A RAM-window read is the mirrored `vram` byte. -/
theorem memRead_ram (b : Bus) (a : Nat) (h : a ≤ 0x1FFF) :
    b.memRead a = some (b.vram (a % 2048)) := by
  have h2 : a % 2048 < 2048 := Nat.mod_lt _ (by norm_num)
  simp [Bus.memRead, Bus.mirrorAddr, h, h2, Bus.readLoc]

/-- A RAM-window write updates the mirrored `vram` byte. -/
theorem memWrite_ram (b : Bus) (a v : Nat) (h : a ≤ 0x1FFF) :
    b.memWrite a v =
      some { b with vram := fun j => if j = a % 2048 then v else b.vram j } := by
  have hrom : ¬(0x8000 ≤ a ∧ a ≤ 0xFFFF) := by omega
  have h2 : a % 2048 < 2048 := Nat.mod_lt _ (by norm_num)
  simp [Bus.memWrite, Bus.mirrorAddr, h, h2, hrom]

/-! ### Claim theorems -/

/-- Claim C1 (code evaluated at the failing input): the Relative mode
zero-extends the offset byte.  With the branch instruction's operand at
`$0010` holding `0x80`, the code resolves the target to
`$0011 + 0x80 = $0091` (forward), while the claimed
`operand_pc + 1 + sign_extend_i8(0x80)` is `$FF91` (backward); a taken
BCS lands on `$0091` accordingly. -/
theorem relative_mode_zero_extends :
    (Cpu.getOpAddr cpuC1 .relative).map Prod.fst = some 0x0091
    ∧ (bcs cpuC1 .relative).map Cpu.pc = some 0x0091
    ∧ (0x0011 + (0x10000 - 0x80)) % 0x10000 = 0xFF91
    ∧ (0x0091 : Nat) ≠ 0xFF91 := by decide

/-- Claim C2 (code evaluated at the failing input): the Indirect mode
does not reproduce the JMP page-wrap quirk.  With `$02FF = 0x34`,
`$0200 = 0x12`, `$0300 = 0xCC`, executing `JMP ($02FF)` reads the high
byte from `$0300` and sets PC to `$CC34`, not the claimed `$1234`. -/
theorem jmp_indirect_no_page_wrap :
    (jmp cpuC2 .indirect).map Cpu.pc = some 0xCC34
    ∧ (0xCC34 : Nat) ≠ 0x1234 := by decide

/-- Claim C3 (counterexample): a read or write in the PPU register window
hits `todo!("PPU is not supported yet")` and panics (modelled `none`)
instead of returning 0 / accepting the write. -/
theorem ppu_window_panics :
    Bus.memRead busZero 0x2000 = none
    ∧ Bus.memWrite busZero 0x2000 0 = none := ⟨by decide, by rfl⟩

/-- Claim C3 (amended): for every address up to `$FFFF` outside the PPU
register window `$2000-$3FFF`, `mem_read` returns a byte and `mem_write`
returns without panicking, with writes at `$4000` and above (unmapped
and cartridge ROM) dropped; inside the window both panic. -/
theorem bus_access_totality (b : Bus) (a v : Nat) (ha : a ≤ 0xFFFF) :
    (0x2000 ≤ a ∧ a ≤ 0x3FFF → b.memRead a = none ∧ b.memWrite a v = none)
    ∧ (¬(0x2000 ≤ a ∧ a ≤ 0x3FFF) →
        (∃ u, b.memRead a = some u)
        ∧ (∃ b', b.memWrite a v = some b')
        ∧ (0x4000 ≤ a → b.memWrite a v = some b)) := by
  constructor
  · rintro ⟨h1, h2⟩
    have hram : ¬(a ≤ 0x1FFF) := by omega
    have hrom : ¬(0x8000 ≤ a ∧ a ≤ 0xFFFF) := by omega
    have hppu : 0x2000 ≤ a ∧ a ≤ 0x3FFF := ⟨h1, h2⟩
    constructor
    · simp [Bus.memRead, Bus.mirrorAddr, hram, hrom, hppu]
    · simp [Bus.memWrite, Bus.mirrorAddr, hram, hrom, hppu]
  · intro hw
    exact ⟨memRead_isSome b a hw, memWrite_isSome b a v hw,
           fun h4 => memWrite_dropped b a v ha h4⟩

/-- Claim C3 witness: the amended totality applied at address `$1000`. -/
theorem bus_access_totality_witness :
    (∃ u, Bus.memRead busZero 0x1000 = some u)
    ∧ (∃ b', Bus.memWrite busZero 0x1000 7 = some b') := by
  have h := (bus_access_totality busZero 0x1000 7 (by decide)).2 (by decide)
  exact ⟨h.1, h.2.1⟩

/-- Claim C4 (code evaluated at the failing input, the repository's own
`op_addr_indirect_x` test state): IndirectX dereferences the un-indexed
zero-page pointer, then adds X and reduces modulo `0xFF` (255), giving
`$0005` where the claimed zero-page-indexed semantics gives `$0000`;
IndirectY reads its base's high byte from `$0100` instead of wrapping to
`$0000`, giving `$1234` where the claimed semantics gives `$0034`. -/
theorem indirect_modes_diverge :
    (Cpu.getOpAddr cpuC4 .indirectX).map Prod.fst = some 0x0005
    ∧ (specIndirectX cpuC4).map Prod.fst = some 0x0000
    ∧ (0x0005 : Nat) ≠ 0x0000
    ∧ (Cpu.getOpAddr cpuC4y .indirectY).map Prod.fst = some 0x1234
    ∧ (specIndirectY cpuC4y).map Prod.fst = some 0x0034
    ∧ (0x1234 : Nat) ≠ 0x0034 := by decide

/-- Claim C5 (counterexample): after `Cpu::new` (and hence `reset`) the
status byte is 0 — `Status::default()` is `empty()`, not the claimed
`I | U` = `0x24`. -/
theorem new_status_not_i_u :
    (Cpu.new busZero).map Cpu.status = some 0
    ∧ (Status.INTERRUPT_DISABLE ||| Status.UNUSED : Nat) = 0x24
    ∧ (0 : Nat) ≠ 0x24 := by decide

/-- Claim C5 (amended): after `Cpu::new` (and after `reset`, which is
`Cpu::new` over the preserved bus, so all 2048 RAM bytes are unchanged):
`A = X = Y = 0`, `SP = 0xFD`, the status byte is 0 (all flags clear),
and PC is the little-endian word at `$FFFC`. -/
theorem new_reset_state :
    (∀ bus : Bus, ∃ c, Cpu.new bus = some c ∧ c.regA = 0 ∧ c.regX = 0
       ∧ c.regY = 0 ∧ c.sp = 0xFD ∧ c.status = 0
       ∧ bus.memReadU16 0xFFFC = some c.pc ∧ c.bus = bus)
    ∧ (∀ c : Cpu, c.reset = Cpu.new c.bus) := by
  constructor
  · intro bus
    obtain ⟨lo, hlo⟩ := memRead_isSome bus 0xFFFC (by omega)
    obtain ⟨hi, hhi⟩ := memRead_isSome bus 0xFFFD (by omega)
    have h16 : bus.memReadU16 0xFFFC = some (lo + 256 * hi) := by
      simp [Bus.memReadU16, hlo, hhi, u16Add]
    refine ⟨{ regA := 0, regX := 0, regY := 0, status := Status.default,
              sp := Cpu.STACK_RESET, pc := lo + 256 * hi, bus := bus },
            ?_, rfl, rfl, rfl, rfl, rfl, ?_, rfl⟩
    · simp [Cpu.new, h16]
    · exact h16
  · intro c
    rfl

/-- Claim C6 (counterexample): with `JSR $1234` whose operand sits at
`$0000`-`$0001`, the pushed word is `$0002` — the already-advanced PC,
the address of the next instruction — not the claimed `PC − 1 = $0001`;
and RTS returns to exactly the popped value `$0002`, not popped + 1. -/
theorem jsr_pushes_advanced_pc :
    ((jsr cpuC6 .absolute).bind fun c => (c.popU16).map Prod.fst) = some 0x0002
    ∧ (0x0002 : Nat) ≠ 0x0001
    ∧ ((jsr cpuC6 .absolute).bind fun c => (rts c .noneAddressing).map Cpu.pc)
        = some 0x0002 := by decide

/-- A push with in-range SP writes the byte at `$0100 + SP` and
decrements SP mod 256. -/
theorem push_ram (c : Cpu) (v : Nat) (hsp : c.sp < 256) :
    c.push v = some { c with
      bus := { c.bus with vram := fun j =>
        if j = 0x0100 + c.sp then v else c.bus.vram j },
      sp := (c.sp + 255) % 256 } := by
  have hmin : min (Cpu.STACK + c.sp) 0xFFFF = 0x0100 + c.sp := by
    unfold Cpu.STACK; omega
  have e1 : (0x0100 + c.sp) % 2048 = 0x0100 + c.sp :=
    Nat.mod_eq_of_lt (by omega)
  unfold Cpu.push
  rw [hmin, memWrite_ram _ _ _ (by omega)]
  simp only [e1]

/-- A 16-bit push with in-range SP: high byte at `$0100 + SP`, low byte
just below it. -/
theorem pushU16_ram (c : Cpu) (v : Nat) (hsp : c.sp < 256) :
    c.pushU16 v = some { c with
      bus := { c.bus with vram := fun j => if j = 0x0100 + (c.sp + 255) % 256 then v % 256 else if j = 0x0100 + c.sp then v / 256 % 256 else c.bus.vram j },
      sp := ((c.sp + 255) % 256 + 255) % 256 } := by
  have h1 := push_ram c (v / 256 % 256) hsp
  have h2 := push_ram { c with
      bus := { c.bus with vram := fun j => if j = 0x0100 + c.sp then v / 256 % 256 else c.bus.vram j },
      sp := (c.sp + 255) % 256 } (v % 256) (Nat.mod_lt _ (by norm_num))
  unfold Cpu.pushU16
  rw [h1]
  dsimp only at h2 ⊢
  rw [h2]

/-- Claim C6 (amended): JSR pushes the already-advanced PC — the address
of the next instruction, `operand_pc + 2` — onto the stack (high byte at
`$0100 + SP`, low byte below it) before setting PC to the target, and
RTS sets PC to the popped 16-bit value without adding 1; the pair is
self-consistent, so RTS after JSR resumes at the instruction after the
JSR. -/
theorem jsr_rts_semantics (c : Cpu) (t : Nat) (c1 : Cpu)
    (hsp : c.sp < 256) (h : c.takeU16 = some (t, c1)) :
    (∃ c2, jsr c .absolute = some c2 ∧ c2.pc = t
       ∧ c2.sp = (c.sp + 254) % 256
       ∧ c2.bus.memRead (0x0100 + c.sp)
           = some ((c.pc + 2) % 65536 / 256 % 256)
       ∧ c2.bus.memRead (0x0100 + (c.sp + 255) % 256)
           = some ((c.pc + 2) % 65536 % 256))
    ∧ (∀ (d : Cpu) (a : Nat) (d1 : Cpu), d.popU16 = some (a, d1) →
        rts d .noneAddressing = some { d1 with pc := a }) := by
  constructor
  · obtain ⟨hm16, hc1⟩ : c.bus.memReadU16 c.pc = some t
        ∧ c1 = { c with pc := (c.pc + 2) % 65536 } := by
      unfold Cpu.takeU16 at h
      rcases hmm : c.bus.memReadU16 c.pc with _ | n <;> rw [hmm] at h <;>
        simp only [Option.some.injEq, Prod.mk.injEq, reduceCtorEq] at h
      obtain ⟨h1, h2⟩ := h
      subst h1
      exact ⟨rfl, h2.symm⟩
    subst hc1
    have htake : c.takeU16 = some (t, { c with pc := (c.pc + 2) % 65536 }) := by
      unfold Cpu.takeU16
      rw [hm16]
    have hpush := pushU16_ram { c with pc := (c.pc + 2) % 65536 }
      ((c.pc + 2) % 65536) hsp
    dsimp only at hpush
    have hjsr : jsr c .absolute = some { c with
        pc := t,
        bus := { c.bus with vram := fun j => if j = 0x0100 + (c.sp + 255) % 256 then (c.pc + 2) % 65536 % 256 else if j = 0x0100 + c.sp then (c.pc + 2) % 65536 / 256 % 256 else c.bus.vram j },
        sp := ((c.sp + 255) % 256 + 255) % 256 } := by
      unfold jsr Cpu.getOpAddr
      rw [htake]
      dsimp only
      rw [hpush]
    have hs1lt : (c.sp + 255) % 256 < 256 := Nat.mod_lt _ (by norm_num)
    have e1 : (0x0100 + c.sp) % 2048 = 0x0100 + c.sp :=
      Nat.mod_eq_of_lt (by omega)
    have e2 : (0x0100 + (c.sp + 255) % 256) % 2048
        = 0x0100 + (c.sp + 255) % 256 := Nat.mod_eq_of_lt (by omega)
    refine ⟨_, hjsr, rfl, by dsimp only; omega, ?_, ?_⟩
    · rw [memRead_ram _ _ (by omega)]
      dsimp only
      simp only [e1]
      rw [if_neg (by omega)]
      simp
    · rw [memRead_ram _ _ (by omega)]
      dsimp only
      simp only [e2]
      simp
  · intro d a d1 hd
    unfold rts
    rw [hd]

/-- Claim C6 witness: the amended JSR semantics instantiated on a CPU
with `SP = $FD` about to jump to `$1234`. -/
theorem jsr_rts_semantics_witness :
    ∃ c2, jsr cpuC6 .absolute = some c2 ∧ c2.pc = 0x1234 := by
  obtain ⟨c2, h1, h2, _⟩ :=
    (jsr_rts_semantics cpuC6 0x1234 { cpuC6 with pc := 2 }
      (by decide) (by rfl)).1
  exact ⟨c2, h1, h2⟩

/-- Claim C7 (counterexample): PLP writes the popped byte into the status
register unchanged.  Popping `0xFF` leaves status `0xFF` — the B bit
(`0x10`) is not cleared and nothing is forced — whereas the claimed
behaviour (`B` cleared, `U` forced) would give `0xEF`. -/
theorem plp_keeps_popped_byte :
    (plp cpuC7 .noneAddressing).map Cpu.status = some 0xFF
    ∧ ((0xFF &&& (0xFF ^^^ Status.BREAK)) ||| Status.UNUSED : Nat) = 0xEF
    ∧ (0xFF : Nat) ≠ 0xEF := by decide

/-- Claim C7 (amended): PHP pushes the status with the B and U bits
forced set, and PLP sets the status register to the popped byte as-is
(`from_bits_truncate` keeps all eight defined bits: B is not cleared and
U is not forced). -/
theorem php_plp_semantics (c : Cpu) (hsp : c.sp < 256) :
    (∃ c', php c .noneAddressing = some c'
       ∧ c'.sp = (c.sp + 255) % 256
       ∧ c'.bus.memRead (0x0100 + c.sp)
           = some (c.status ||| Status.BREAK ||| Status.UNUSED))
    ∧ (∃ d, plp c .noneAddressing = some d ∧ d.sp = (c.sp + 1) % 256
       ∧ d.status = c.bus.vram (0x0100 + (c.sp + 1) % 256) &&& 0xFF) := by
  have e1 : (0x0100 + c.sp) % 2048 = 0x0100 + c.sp :=
    Nat.mod_eq_of_lt (by omega)
  constructor
  · have hw := push_ram c (c.status ||| Status.BREAK ||| Status.UNUSED) hsp
    refine ⟨_, hw, rfl, ?_⟩
    rw [memRead_ram _ _ (by omega)]
    dsimp only
    simp [e1]
  · have hsplt : (c.sp + 1) % 256 < 256 := Nat.mod_lt _ (by norm_num)
    have hmin2 : min (Cpu.STACK + (c.sp + 1) % 256) 0xFFFF
        = 0x0100 + (c.sp + 1) % 256 := by
      unfold Cpu.STACK; omega
    have e2 : (0x0100 + (c.sp + 1) % 256) % 2048
        = 0x0100 + (c.sp + 1) % 256 := Nat.mod_eq_of_lt (by omega)
    have hr := memRead_ram c.bus (0x0100 + (c.sp + 1) % 256) (by omega)
    have hplp : plp c .noneAddressing = some { c with
        sp := (c.sp + 1) % 256,
        status := c.bus.vram ((0x0100 + (c.sp + 1) % 256) % 2048) &&& 0xFF } := by
      unfold plp Cpu.pop
      dsimp only
      rw [hmin2, hr]
    refine ⟨_, hplp, rfl, ?_⟩
    dsimp only
    simp only [e2]

/-- Claim C7 witness: PHP/PLP semantics instantiated on a CPU with
`SP = $FD` and status 0; the pushed byte is `0x30 = B | U`. -/
theorem php_plp_semantics_witness :
    ∃ c', php cpuC7 .noneAddressing = some c'
      ∧ c'.sp = (0xFD + 255) % 256
      ∧ c'.bus.memRead (0x0100 + 0xFD) = some 0x30 := by
  obtain ⟨c', h1, h2, h3⟩ := (php_plp_semantics cpuC7 (by decide)).1
  exact ⟨c', h1, h2, h3⟩

/-- Claim C8 (counterexample): the table entries for JMP — `0x4C`
(absolute) and `0x6C` (indirect) — record `bytes = 1` although their
addressing-mode size plus 1 is 3, so a mapped byte with
`mode.size + 1 ≠ bytes` does occur. -/
theorem jmp_entries_size_mismatch :
    (opcodesGet 0x4C).map (fun e => (e.mode.size + 1, e.bytes)) = some (3, 1)
    ∧ (opcodesGet 0x6C).map (fun e => (e.mode.size + 1, e.bytes)) = some (3, 1)
    ∧ (3 : Nat) ≠ 1 := by decide

set_option maxRecDepth 8192 in
/-- Claim C8 (amended): for every byte `b < 256`, either the opcode table
maps `b` to an entry with `mode.size + 1 = bytes`, or `b` is absent (the
InvalidOpcode path) — except the two JMP entries `0x4C` and `0x6C`,
whose recorded `bytes` field is 1 while `mode.size + 1 = 3`. -/
theorem opcode_table_size_invariant (b : Nat) (_hb : b < 256) :
    opcodesGet b = none
    ∨ ∃ e, opcodesGet b = some e
        ∧ (e.mode.size + 1 = e.bytes
           ∨ ((e.code = 0x4C ∨ e.code = 0x6C) ∧ e.bytes = 1
              ∧ e.mode.size + 1 = 3)) := by
  cases hfind : opcodesGet b with
  | none => exact Or.inl rfl
  | some e =>
    refine Or.inr ⟨e, rfl, ?_⟩
    have hmem : e ∈ OPCODES := List.mem_of_find?_eq_some hfind
    have hall : ∀ x ∈ OPCODES,
        x.mode.size + 1 = x.bytes
        ∨ ((x.code = 0x4C ∨ x.code = 0x6C) ∧ x.bytes = 1
           ∧ x.mode.size + 1 = 3) := by decide
    exact hall e hmem

/-- Claim C8 witness: the amended invariant applied at byte `0xA9`
(LDA immediate, a well-formed entry). -/
theorem opcode_table_size_invariant_witness :
    opcodesGet 0xA9 = none
    ∨ ∃ e, opcodesGet 0xA9 = some e
        ∧ (e.mode.size + 1 = e.bytes
           ∨ ((e.code = 0x4C ∨ e.code = 0x6C) ∧ e.bytes = 1
              ∧ e.mode.size + 1 = 3)) :=
  opcode_table_size_invariant 0xA9 (by decide)

set_option maxRecDepth 8192 in
/-- One's complement of a byte is XOR with `0xFF`. -/
theorem byte_compl : ∀ M, M < 256 → 255 - M = M ^^^ 0xFF := by decide

/-- `x &&& 2^i` is `2^i` or `0` according to bit `i` of `x`. -/
theorem and_two_pow_eq (s i : Nat) :
    s &&& 2 ^ i = if s.testBit i then 2 ^ i else 0 := by
  apply Nat.eq_of_testBit_eq
  intro j
  by_cases hij : i = j
  · subst hij
    cases h : s.testBit i <;> simp [Nat.testBit_and, Nat.testBit_two_pow, h]
  · cases h : s.testBit i <;>
      simp [Nat.testBit_and, Nat.testBit_two_pow, h, hij, Nat.zero_testBit]

/-- The `bitflags` containment test for a single-bit flag is the bit. -/
theorem and_two_pow_beq (s i : Nat) :
    (s &&& 2 ^ i == 2 ^ i) = s.testBit i := by
  rw [and_two_pow_eq]
  cases h : s.testBit i <;>
    simp [(Nat.two_pow_pos i).ne, (Nat.two_pow_pos i).ne']

/-- Nonzero single-bit mask test is the bit. -/
theorem and_two_pow_ne_zero (s i : Nat) :
    (s &&& 2 ^ i ≠ 0) ↔ s.testBit i := by
  rw [and_two_pow_eq]
  cases h : s.testBit i <;>
    simp [(Nat.two_pow_pos i).ne, (Nat.two_pow_pos i).ne']

/-- Setting a single-bit flag makes that bit the given value. -/
theorem statusSet_testBit_self (s : Nat) (b : Bool) (i : Nat) (hi : i < 8) :
    (statusSet s (2 ^ i) b).testBit i = b := by
  have h255 : Nat.testBit 0xFF i = true :=
    (by decide : ∀ k, k < 8 → Nat.testBit 0xFF k = true) i hi
  unfold statusSet
  cases b
  · rw [if_neg (by simp)]
    simp [Nat.testBit_and, Nat.testBit_xor, h255, Nat.testBit_two_pow]
  · rw [if_pos rfl]
    simp [Nat.testBit_or, Nat.testBit_two_pow]

/-- Setting a single-bit flag leaves the other low bits untouched. -/
theorem statusSet_testBit_other (s : Nat) (b : Bool) (i j : Nat)
    (hj : j < 8) (hij : i ≠ j) :
    (statusSet s (2 ^ i) b).testBit j = s.testBit j := by
  have h255 : Nat.testBit 0xFF j = true :=
    (by decide : ∀ k, k < 8 → Nat.testBit 0xFF k = true) j hj
  unfold statusSet
  cases b
  · rw [if_neg (by simp)]
    simp [Nat.testBit_and, Nat.testBit_xor, h255, Nat.testBit_two_pow, hij]
  · rw [if_pos rfl]
    simp [Nat.testBit_or, Nat.testBit_two_pow, hij]

/-- The two-step carry of `op_with_carry` equals the carry out of the full
sum, for a carry-in of at most 1. -/
theorem carry_bool (A M cIn : Nat) (hc : cIn ≤ 1) :
    (decide (256 ≤ A + M) || decide (256 ≤ (A + M) % 256 + cIn))
      = decide (256 ≤ A + M + cIn) := by
  by_cases h1 : 256 ≤ A + M <;> by_cases h2 : 256 ≤ (A + M) % 256 + cIn <;>
    by_cases h3 : 256 ≤ A + M + cIn <;> simp [h1, h2, h3] <;> omega

/-- The source's overflow test `(!(M ^ A) & (M ^ out)) & 0x80 ≠ 0` agrees
with the spec's `((A ^ out) & (M ^ out) & 0x80) ≠ 0`. -/
theorem overflow_bool (A M out : Nat) :
    (((0xFF ^^^ (M ^^^ A)) &&& (M ^^^ out)) &&& 0x80 ≠ 0
      ↔ (A ^^^ out) &&& (M ^^^ out) &&& 0x80 ≠ 0) := by
  rw [show (0x80 : Nat) = 2 ^ 7 by norm_num,
      and_two_pow_ne_zero ((0xFF ^^^ (M ^^^ A)) &&& (M ^^^ out)) 7,
      and_two_pow_ne_zero ((A ^^^ out) &&& (M ^^^ out)) 7]
  have h255 : Nat.testBit 0xFF 7 = true := by decide
  simp only [Nat.testBit_and, Nat.testBit_xor, h255]
  cases hA : A.testBit 7 <;> cases hM : M.testBit 7 <;>
    cases hO : out.testBit 7 <;> simp

/-- The accumulator and the carry/overflow flags `adcStep` leaves, read
off its definition (the carry-in `if` is left verbatim). -/
theorem adcStep_flags (c1 : Cpu) (val : Nat) :
    (adcStep c1 val).regA
      = ((c1.regA + val) % 256
          + (if c1.statusContains Status.CARRY then 1 else 0)) % 256
    ∧ ((adcStep c1 val).statusContains Status.CARRY
        = (decide (256 ≤ c1.regA + val)
           || decide (256 ≤ (c1.regA + val) % 256
                + (if c1.statusContains Status.CARRY then 1 else 0))))
    ∧ ((adcStep c1 val).statusContains Status.OVERFLOW
        = decide ((0xFF ^^^ (val ^^^ c1.regA)) &&& (val ^^^ ((c1.regA + val) % 256 + (if c1.statusContains Status.CARRY then 1 else 0)) % 256) &&& 0x80 ≠ 0)) := by
  have hCbit : (Status.CARRY : Nat) = 2 ^ 0 := by norm_num [Status.CARRY]
  have hVbit : (Status.OVERFLOW : Nat) = 2 ^ 6 := by norm_num [Status.OVERFLOW]
  refine ⟨rfl, ?_, ?_⟩
  · show ((statusSet (statusSet _ Status.CARRY _) Status.OVERFLOW _)
        &&& Status.CARRY == Status.CARRY) = _
    rw [hCbit, hVbit, and_two_pow_beq,
        statusSet_testBit_other _ _ _ _ (by norm_num) (by norm_num),
        statusSet_testBit_self _ _ _ (by norm_num)]
  · show ((statusSet (statusSet _ Status.CARRY _) Status.OVERFLOW _)
        &&& Status.OVERFLOW == Status.OVERFLOW) = _
    rw [hVbit, and_two_pow_beq,
        statusSet_testBit_self _ _ _ (by norm_num)]

/-- Claim C9: once the operand byte `M` is fetched, ADC stores
`(A + M + C) mod 256`, sets carry to the carry out of bit 7 of the full
sum, and sets overflow iff `((A ^ sum) & (M ^ sum) & 0x80) ≠ 0`; SBC
produces exactly the ADC data path applied to `M ^ 0xFF`. -/
theorem adc_sbc_semantics (c : Cpu) (mode : AddressingMode) (addr : Nat)
    (c1 : Cpu) (M : Nat) (hM : M < 256)
    (h1 : c.getOpAddr mode = some (addr, c1))
    (h2 : c1.bus.memRead addr = some M) :
    adc c mode = some (adcStep c1 M)
    ∧ sbc c mode = some (adcStep c1 (M ^^^ 0xFF))
    ∧ (adcStep c1 M).regA
        = (c1.regA + M + (if c1.statusContains Status.CARRY then 1 else 0)) % 256
    ∧ ((adcStep c1 M).statusContains Status.CARRY
        = decide (256 ≤ c1.regA + M
            + (if c1.statusContains Status.CARRY then 1 else 0)))
    ∧ ((adcStep c1 M).statusContains Status.OVERFLOW
        = decide ((c1.regA ^^^ ((c1.regA + M + (if c1.statusContains Status.CARRY then 1 else 0)) % 256)) &&& (M ^^^ ((c1.regA + M + (if c1.statusContains Status.CARRY then 1 else 0)) % 256)) &&& 0x80 ≠ 0)) := by
  have hadc : adc c mode = some (adcStep c1 M) := by
    unfold adc opWithCarry adcStep
    rw [h1]
    dsimp only
    rw [h2]
    rfl
  have hsbc : sbc c mode = some (adcStep c1 (M ^^^ 0xFF)) := by
    unfold sbc opWithCarry
    rw [h1]
    dsimp only
    rw [h2]
    dsimp only
    rw [byte_compl M hM]
    rfl
  have hk : (if c1.statusContains Status.CARRY then 1 else 0) ≤ 1 := by
    split <;> omega
  have hout : ((c1.regA + M) % 256
        + (if c1.statusContains Status.CARRY then 1 else 0)) % 256
      = (c1.regA + M
        + (if c1.statusContains Status.CARRY then 1 else 0)) % 256 := by
    omega
  obtain ⟨hr, hc, hv⟩ := adcStep_flags c1 M
  refine ⟨hadc, hsbc, ?_, ?_, ?_⟩
  · rw [hr]
    omega
  · rw [hc, carry_bool _ _ _ hk]
  · rw [hv, hout, decide_eq_decide]
    exact overflow_bool c1.regA M
      ((c1.regA + M + (if c1.statusContains Status.CARRY then 1 else 0)) % 256)

/-- Claim C9 witness: ADC/SBC semantics instantiated on `A = 5`, carry
set, immediate operand 5; the sum is `5 + 5 + 1 = 11`. -/
theorem adc_sbc_semantics_witness :
    adc cpuC9 .immediate = some (adcStep { cpuC9 with pc := 1 } 5)
    ∧ (adcStep { cpuC9 with pc := 1 } 5).regA = 11
    ∧ sbc cpuC9 .immediate = some (adcStep { cpuC9 with pc := 1 } (5 ^^^ 0xFF)) := by
  have h := adc_sbc_semantics cpuC9 .immediate cpuC9.pc { cpuC9 with pc := 1 } 5
    (by decide) rfl rfl
  exact ⟨h.1, by decide, h.2.1⟩

/-- Claim C10: the tracer's operand formatter is defined exactly on
Immediate, ZeroPage, ZeroPageX, IndirectX, Relative, Absolute and
NoneAddressing.  For ZeroPageY, AbsoluteX, AbsoluteY, Indirect and
IndirectY it hits the catch-all `todo!` and panics — a whole trace line
then panics rather than returning a line or `None` — and in the Relative
case the displayed target comes from an unsigned, non-wrapping byte
addition that panics when the offset byte is `0xFF`. -/
theorem tracer_partiality :
    (∀ (cpu : Cpu) (op : OpCode),
       op.mode = .zeroPageY ∨ op.mode = .absoluteX ∨ op.mode = .absoluteY
         ∨ op.mode = .indirect ∨ op.mode = .indirectY →
       traceAddrModeFmt cpu op = none)
    ∧ (∀ (cpu : Cpu) (b : Nat) (op : OpCode),
        cpu.bus.memRead cpu.pc = some b → opcodesGet b = some op →
        op.mode = .zeroPageY ∨ op.mode = .absoluteX ∨ op.mode = .absoluteY
          ∨ op.mode = .indirect ∨ op.mode = .indirectY →
        traceOp cpu = none)
    ∧ (∀ (cpu : Cpu) (op : OpCode), op.mode = .relative →
        cpu.pc + 1 ≤ 0xFFFF → cpu.bus.memRead (cpu.pc + 1) = some 0xFF →
        traceAddrModeFmt cpu op = none)
    ∧ (∀ (cpu : Cpu) (op : OpCode), op.mode = .noneAddressing →
        traceAddrModeFmt cpu op = some ("", 0))
    ∧ traceAddrModeFmt cpuTr (OpCode.mk 0xA9 "lda" .immediate 2 2)
        = some ("#$05", 4)
    ∧ traceAddrModeFmt cpuTr (OpCode.mk 0xA5 "lda" .zeroPage 2 3)
        = some ("$05 = 20", 8)
    ∧ traceAddrModeFmt cpuTr (OpCode.mk 0xB5 "lda" .zeroPageX 2 4)
        = some ("$05,X @ 05 = 20", 15)
    ∧ traceAddrModeFmt cpuTr (OpCode.mk 0xA1 "lda" .indirectX 2 6)
        = some ("($05,X) @ 05 = 0020 = 00", 24)
    ∧ traceAddrModeFmt cpuTr (OpCode.mk 0x90 "bcc" .relative 2 2)
        = some ("$0007", 5)
    ∧ traceAddrModeFmt cpuTr (OpCode.mk 0xAD "lda" .absolute 3 4)
        = some ("$1005 = 20", 10)
    ∧ traceAddrModeFmt cpuTr (OpCode.mk 0x4C "jmp" .absolute 1 3)
        = some ("$1005", 5) := by
  have part1 : ∀ (cpu : Cpu) (op : OpCode),
      op.mode = .zeroPageY ∨ op.mode = .absoluteX ∨ op.mode = .absoluteY
        ∨ op.mode = .indirect ∨ op.mode = .indirectY →
      traceAddrModeFmt cpu op = none := by
    intro cpu op hmode
    have hne : ¬(op.mode = AddressingMode.noneAddressing) := by
      rcases hmode with h | h | h | h | h <;> rw [h] <;> decide
    unfold traceAddrModeFmt
    rw [if_neg hne]
    split
    · rfl
    · split
      · rfl
      · rcases hmode with h | h | h | h | h <;> rw [h]
  refine ⟨part1, ?_, ?_, ?_, by decide, by decide, by decide, by decide,
          by decide, by decide, by decide⟩
  · intro cpu b op hb hop hmode
    unfold traceOp
    rw [hb]
    dsimp only
    rw [hop]
    dsimp only
    split
    · rfl
    · rw [part1 cpu op hmode]
  · intro cpu op hmode hpc hread
    have hu : u16Add cpu.pc 1 = some (cpu.pc + 1) := by
      unfold u16Add
      rw [if_pos hpc]
    have hget : Cpu.getOpAddr { cpu with pc := cpu.pc + 1 } .relative
        = some (((cpu.pc + 1 + 1) % 65536 + 0xFF) % 65536,
            { cpu with pc := (cpu.pc + 1 + 1) % 65536 }) := by
      unfold Cpu.getOpAddr Cpu.take
      dsimp only
      rw [hread]
    have hne : ¬(op.mode = AddressingMode.noneAddressing) := by
      rw [hmode]; decide
    unfold traceAddrModeFmt
    rw [if_neg hne, hu]
    dsimp only
    rw [hmode, hget]
    dsimp only
    rw [hread]
    rfl
  · intro cpu op hmode
    unfold traceAddrModeFmt
    rw [if_pos hmode]

/-- Claim C10 witness: the tracer panics on an `LDA abs,X` line and on a
Relative operand byte `0xFF`, and renders the empty operand for an
implied-mode opcode. -/
theorem tracer_partiality_witness :
    traceAddrModeFmt cpuTrBD (OpCode.mk 0xBD "lda" .absoluteX 3 4) = none
    ∧ traceOp cpuTrBD = none
    ∧ traceAddrModeFmt cpuRelFF (OpCode.mk 0x90 "bcc" .relative 2 2) = none
    ∧ traceAddrModeFmt cpuTr (OpCode.mk 0xEA "nop" .noneAddressing 1 2)
        = some ("", 0) :=
  ⟨tracer_partiality.1 cpuTrBD (OpCode.mk 0xBD "lda" .absoluteX 3 4)
     (by decide),
   tracer_partiality.2.1 cpuTrBD 0xBD (OpCode.mk 0xBD "lda" .absoluteX 3 4)
     (by decide) (by decide) (by decide),
   tracer_partiality.2.2.1 cpuRelFF (OpCode.mk 0x90 "bcc" .relative 2 2)
     rfl (by decide) (by decide),
   tracer_partiality.2.2.2.1 cpuTr (OpCode.mk 0xEA "nop" .noneAddressing 1 2)
     rfl⟩

end Fete
